import Mathlib

/-!
Verification of the Danesfield pipeline orchestrator (`tools/run_danesfield.py`).

The development shallowly embeds the orchestrator's pure core: the substring
classification of discovered imagery paths, the per-collection record
construction, the completeness validation, the working-directory creation
check, and the argument lists that the driver passes to each pipeline stage.
Line numbers in doc comments refer to `tools/run_danesfield.py`.
-/

namespace Danesfield

/-- Whether `needle` occurs as a contiguous block starting at some position of
the second list. -/
def occursAux (needle : List Char) : List Char → Bool
  | [] => needle.isEmpty
  | c :: cs => needle.isPrefixOf (c :: cs) || occursAux needle cs

/-- Models the Python substring test `needle in hay` (equivalently
`hay.find(needle) >= 0`) on strings. -/
def substrIn (needle hay : String) : Bool :=
  occursAux needle.data hay.data

/-- Models Python `str.lower()` on the ASCII paths handled here. -/
def lowercase (s : String) : String :=
  String.mk (s.data.map Char.toLower)

/-- The three modality sub-dictionaries of a collection record. -/
inductive Modality where
  | pan
  | msi
  | swir
deriving DecidableEq

/-- Role-to-path dictionary for one modality, with Python dict semantics:
insertion order preserved, assignment overwrites an existing key. -/
abbrev RoleDict := List (String × String)

/-- Python dict assignment `d[k] = v`. -/
def dictInsert (d : RoleDict) (k v : String) : RoleDict :=
  match d with
  | [] => [(k, v)]
  | (k', v') :: rest => if k' = k then (k, v) :: rest else (k', v') :: dictInsert rest k v

/-- Per-collection record created in `main` (lines 169-174): the three modality
dictionaries plus the sensor obliquity `angle` field, initialised to `-1`. -/
structure CollectionRecord where
  pan : RoleDict
  msi : RoleDict
  swir : RoleDict
  angle : Int
deriving DecidableEq

/-- The record `{'pan': {}, 'msi': {}, 'swir': {}, 'angle': -1}` (lines 169-174). -/
def initRecord : CollectionRecord := ⟨[], [], [], -1⟩

/-- Projection of the modality sub-dictionary selected by `m`. -/
def CollectionRecord.mod (r : CollectionRecord) : Modality → RoleDict
  | .pan => r.pan
  | .msi => r.msi
  | .swir => r.swir

/-- Replacement of the modality sub-dictionary selected by `m`. -/
def CollectionRecord.setMod (r : CollectionRecord) : Modality → RoleDict → CollectionRecord
  | .pan, d => { r with pan := d }
  | .msi, d => { r with msi := d }
  | .swir, d => { r with swir := d }

/-- The modality chosen by the if/elif chain of `classify_fpaths` (lines 94-99):
`-P1BS-` wins over `-M1BS-`, which wins over `-A1BS-`; no marker means the
path is silently dropped. -/
def classifyModality (fpath : String) : Option Modality :=
  if substrIn "-P1BS-" fpath then some .pan
  else if substrIn "-M1BS-" fpath then some .msi
  else if substrIn "-A1BS-" fpath then some .swir
  else none

/-- One iteration of the `classify_fpaths` loop (lines 92-99): when the path
contains the collection prefix, store it under the marker-selected modality at
the key `file_type`; otherwise leave the record unchanged. -/
def classifyStep (pfx file_type : String) (acc : CollectionRecord) (fpath : String) :
    CollectionRecord :=
  if substrIn pfx fpath then
    match classifyModality fpath with
    | some m => acc.setMod m (dictInsert (acc.mod m) file_type fpath)
    | none => acc
  else acc

/-- `classify_fpaths` (lines 74-99). Every dictionary update of the source
function targets the single entry `id_to_files[prefix]`, so the function is
modelled as a transformer of that one record. -/
def classify_fpaths (pfx : String) (fpaths : List String) (r : CollectionRecord)
    (file_type : String) : CollectionRecord :=
  fpaths.foldl (classifyStep pfx file_type) r

/-- `ensure_complete_modality` (lines 56-71): the modality dictionary must
contain the keys `image` and `info`, and also `rpc` when `require_rpc`. -/
def ensure_complete_modality (modality_dict : RoleDict) (require_rpc : Bool) : Bool :=
  (["image", "info"] ++ if require_rpc then ["rpc"] else []).all
    (fun key => (List.lookup key modality_dict).isSome)

/-- Whether a 14-character candidate matches the vendor pattern
`[0-9]{2}[A-Z]{3}[0-9]{8}-` exactly (line 158). -/
def matchesPattern (s : List Char) : Bool :=
  s.length == 14 &&
  (s.take 2).all Char.isDigit &&
  ((s.drop 2).take 3).all (fun c => 'A' ≤ c && c ≤ 'Z') &&
  ((s.drop 5).take 8).all Char.isDigit &&
  ((s.drop 13) == ['-'])

/-- Leftmost match of the vendor pattern in a path:
models `prefix_regex.search(ntf_fpath)` (line 160). -/
def searchId : List Char → Option (List Char)
  | [] => none
  | c :: cs =>
    if matchesPattern ((c :: cs).take 14) then some ((c :: cs).take 14)
    else searchId cs

/-- Python `str.rstrip('-')` (line 162). -/
def rstripDash (s : List Char) : List Char :=
  (s.reverse.dropWhile (fun c => c == '-')).reverse

/-- The collection prefixes extracted from the NTF paths (lines 156-163).
Python collects them in a set and then lists it; the set is modelled as
first-occurrence deduplication. -/
def extractPrefixes (ntf_fpaths : List String) : List String :=
  ((ntf_fpaths.filterMap (fun p => searchId p.data)).map
    (fun m => String.mk (rstripDash m))).dedup

/-- The record built for one prefix by the three `classify_fpaths` calls of
`main` (lines 176-178): NTF paths as `image`, then RPC paths as `rpc`, then
tar paths as `info`. -/
def buildRecord (pfx : String) (ntf_fpaths rpc_fpaths info_fpaths : List String) :
    CollectionRecord :=
  classify_fpaths pfx info_fpaths
    (classify_fpaths pfx rpc_fpaths
      (classify_fpaths pfx ntf_fpaths initRecord "image") "rpc")
    "info"

/-- The completeness test of `main` (lines 182-185): PAN and MSI must each be
complete with `require_rpc=True`; SWIR is not checked. -/
def recordComplete (r : CollectionRecord) : Bool :=
  ensure_complete_modality r.pan true && ensure_complete_modality r.msi true

/-- The catalogue loop of `main` (lines 166-191): build a record per prefix,
keep it when complete, otherwise drop it and append the prefix to
`incomplete_ids`.  Returns `(collection_id_to_files, incomplete_ids)`. -/
def buildCatalog (ntf_fpaths rpc_fpaths info_fpaths : List String) :
    List (String × CollectionRecord) × List String :=
  (extractPrefixes ntf_fpaths).foldl
    (fun acc pfx =>
      let r := buildRecord pfx ntf_fpaths rpc_fpaths info_fpaths
      if recordComplete r then (acc.1 ++ [(pfx, r)], acc.2)
      else (acc.1, acc.2 ++ [pfx]))
    ([], [])

/-- All path values stored anywhere in a record's three modality dictionaries. -/
def recordPaths (r : CollectionRecord) : List String :=
  (r.pan ++ r.msi ++ r.swir).map Prod.snd

end Danesfield

namespace Danesfield

/-- Looking a key up after a Python dict assignment. -/
theorem lookup_dictInsert (d : RoleDict) (k v q : String) :
    List.lookup q (dictInsert d k v) = if q = k then some v else List.lookup q d := by
  induction d with
  | nil =>
    by_cases hq : q = k
    · simp [dictInsert, List.lookup, hq]
    · have hq' : (q == k) = false := beq_eq_false_iff_ne.mpr hq
      simp [dictInsert, List.lookup, hq', hq]
  | cons hd tl ih =>
    obtain ⟨k', v'⟩ := hd
    by_cases hk : k' = k
    · subst hk
      by_cases hq : q = k'
      · simp [dictInsert, List.lookup, hq]
      · have hq' : (q == k') = false := beq_eq_false_iff_ne.mpr hq
        simp [dictInsert, List.lookup, hq', hq]
    · have e1 : dictInsert ((k', v') :: tl) k v = (k', v') :: dictInsert tl k v := by
        simp [dictInsert, hk]
      by_cases hq : q = k'
      · subst hq
        have hqk : ¬ q = k := hk
        simp [e1, List.lookup, hqk]
      · have hq' : (q == k') = false := beq_eq_false_iff_ne.mpr hq
        simp [e1, List.lookup, hq', ih]

/-- Membership in a dictionary after a Python dict assignment comes either from
the original dictionary or is the new binding. -/
theorem mem_dictInsert (d : RoleDict) (k v : String) (q p : String) :
    (q, p) ∈ dictInsert d k v → (q, p) ∈ d ∨ (q = k ∧ p = v) := by
  induction d with
  | nil =>
    intro h
    simp [dictInsert] at h
    exact Or.inr ⟨h.1, h.2⟩
  | cons hd tl ih =>
    obtain ⟨k', v'⟩ := hd
    by_cases hk : k' = k
    · subst hk
      have e1 : dictInsert ((k', v') :: tl) k' v = (k', v) :: tl := by
        simp [dictInsert]
      intro h
      rw [e1] at h
      rcases List.mem_cons.mp h with h1 | h1
      · right
        exact ⟨congrArg Prod.fst h1, congrArg Prod.snd h1⟩
      · left
        exact List.mem_cons_of_mem _ h1
    · have e1 : dictInsert ((k', v') :: tl) k v = (k', v') :: dictInsert tl k v := by
        simp [dictInsert, hk]
      intro h
      rw [e1] at h
      rcases List.mem_cons.mp h with h1 | h1
      · left
        exact List.mem_cons.mpr (Or.inl h1)
      · rcases ih h1 with h2 | h2
        · left
          exact List.mem_cons_of_mem _ h2
        · right
          exact h2

/-- Reading a modality after writing one. -/
theorem mod_setMod (r : CollectionRecord) (m m' : Modality) (d : RoleDict) :
    (r.setMod m d).mod m' = if m' = m then d else r.mod m' := by
  cases m <;> cases m' <;> simp [CollectionRecord.setMod, CollectionRecord.mod]

/-- Writing a modality dictionary never touches the angle field. -/
theorem angle_setMod (r : CollectionRecord) (m : Modality) (d : RoleDict) :
    (r.setMod m d).angle = r.angle := by
  cases m <;> simp [CollectionRecord.setMod]

/-- Generalised accumulator form of the catalogue loop. -/
theorem buildCatalog_foldl (ntf_fpaths rpc_fpaths info_fpaths : List String) :
    ∀ (l : List String) (c : List (String × CollectionRecord)) (i : List String),
      l.foldl
        (fun acc pfx =>
          let r := buildRecord pfx ntf_fpaths rpc_fpaths info_fpaths
          if recordComplete r then (acc.1 ++ [(pfx, r)], acc.2)
          else (acc.1, acc.2 ++ [pfx]))
        (c, i) =
      (c ++ (l.filter
          (fun q => recordComplete (buildRecord q ntf_fpaths rpc_fpaths info_fpaths))).map
          (fun q => (q, buildRecord q ntf_fpaths rpc_fpaths info_fpaths)),
       i ++ l.filter
          (fun q => !recordComplete (buildRecord q ntf_fpaths rpc_fpaths info_fpaths))) := by
  intro l
  induction l with
  | nil => intro c i; simp
  | cons a as ih =>
    intro c i
    by_cases hc : recordComplete (buildRecord a ntf_fpaths rpc_fpaths info_fpaths) = true
    · simp [List.foldl_cons, hc, ih, List.filter_cons]
    · simp [List.foldl_cons, hc, ih, List.filter_cons]

/-- The catalogue loop keeps exactly the complete records, in prefix order, and
lists exactly the incomplete prefixes. -/
theorem buildCatalog_eq (ntf_fpaths rpc_fpaths info_fpaths : List String) :
    buildCatalog ntf_fpaths rpc_fpaths info_fpaths =
      (((extractPrefixes ntf_fpaths).filter
          (fun q => recordComplete (buildRecord q ntf_fpaths rpc_fpaths info_fpaths))).map
          (fun q => (q, buildRecord q ntf_fpaths rpc_fpaths info_fpaths)),
       (extractPrefixes ntf_fpaths).filter
          (fun q => !recordComplete (buildRecord q ntf_fpaths rpc_fpaths info_fpaths))) := by
  have h := buildCatalog_foldl ntf_fpaths rpc_fpaths info_fpaths (extractPrefixes ntf_fpaths) [] []
  simpa [buildCatalog] using h

/-- C2: a collection record passes the completeness check kept by `main` if and
only if its PAN dictionary and its MSI dictionary each contain all three keys
`image`, `info` and `rpc`; the SWIR dictionary plays no role in the decision,
and every record kept in the working catalogue passes the check. -/
theorem complete_iff_pan_msi_have_image_info_rpc :
    ∀ r : CollectionRecord,
      (recordComplete r = true ↔
        ((List.lookup "image" r.pan).isSome ∧ (List.lookup "info" r.pan).isSome ∧
         (List.lookup "rpc" r.pan).isSome ∧ (List.lookup "image" r.msi).isSome ∧
         (List.lookup "info" r.msi).isSome ∧ (List.lookup "rpc" r.msi).isSome)) ∧
      (∀ sw : RoleDict, recordComplete { r with swir := sw } = recordComplete r) ∧
      (∀ ntf_fpaths rpc_fpaths info_fpaths : List String,
        ∀ pr ∈ (buildCatalog ntf_fpaths rpc_fpaths info_fpaths).1,
          recordComplete pr.2 = true) := by
  intro r
  refine ⟨?_, fun sw => rfl, ?_⟩
  · simp [recordComplete, ensure_complete_modality, and_assoc]
  · intro ntf_fpaths rpc_fpaths info_fpaths pr hpr
    rw [buildCatalog_eq] at hpr
    obtain ⟨q, hq, rfl⟩ := List.mem_map.mp hpr
    exact (List.mem_filter.mp hq).2

/-- Witness for the completeness characterisation, evaluated on a concrete
record holding all six required entries. -/
theorem complete_iff_witness :
    recordComplete ⟨[("image", "a"), ("info", "b"), ("rpc", "c")],
      [("image", "d"), ("info", "e"), ("rpc", "f")], [], -1⟩ = true ↔
      ((List.lookup "image" ([("image", "a"), ("info", "b"), ("rpc", "c")] : RoleDict)).isSome ∧
       (List.lookup "info" ([("image", "a"), ("info", "b"), ("rpc", "c")] : RoleDict)).isSome ∧
       (List.lookup "rpc" ([("image", "a"), ("info", "b"), ("rpc", "c")] : RoleDict)).isSome ∧
       (List.lookup "image" ([("image", "d"), ("info", "e"), ("rpc", "f")] : RoleDict)).isSome ∧
       (List.lookup "info" ([("image", "d"), ("info", "e"), ("rpc", "f")] : RoleDict)).isSome ∧
       (List.lookup "rpc" ([("image", "d"), ("info", "e"), ("rpc", "f")] : RoleDict)).isSome) :=
  (complete_iff_pan_msi_have_image_info_rpc
    ⟨[("image", "a"), ("info", "b"), ("rpc", "c")],
     [("image", "d"), ("info", "e"), ("rpc", "f")], [], -1⟩).1

/-- C5 counterexample: a path that carries both the `-P1BS-` and the `-M1BS-`
marker contains `-M1BS-`, yet classification records it under PAN and not
under MSI, refuting the claimed "assigned to MSI exactly when it contains
-M1BS-". -/
theorem marker_elif_counterexample :
    substrIn "-M1BS-" "12ABC12345678-P1BS-a-M1BS-b.ntf" = true ∧
    List.lookup "image"
      ((classify_fpaths "12ABC12345678" ["12ABC12345678-P1BS-a-M1BS-b.ntf"]
        initRecord "image").msi) = none ∧
    List.lookup "image"
      ((classify_fpaths "12ABC12345678" ["12ABC12345678-P1BS-a-M1BS-b.ntf"]
        initRecord "image").pan) = some "12ABC12345678-P1BS-a-M1BS-b.ntf" := by
  refine ⟨by decide, by decide, by decide⟩

/-- C5 amended: the markers are tested in a fixed if/elif order, `-P1BS-`
before `-M1BS-` before `-A1BS-`, so a path goes to PAN exactly when it
contains `-P1BS-`, to MSI exactly when it contains `-M1BS-` but not `-P1BS-`,
to SWIR exactly when it contains `-A1BS-` and neither earlier marker, and a
path containing no marker is silently dropped without an error. -/
theorem marker_precedence :
    ∀ p : String,
      (classifyModality p = some .pan ↔ substrIn "-P1BS-" p = true) ∧
      (classifyModality p = some .msi ↔
        (substrIn "-M1BS-" p = true ∧ substrIn "-P1BS-" p = false)) ∧
      (classifyModality p = some .swir ↔
        (substrIn "-A1BS-" p = true ∧ substrIn "-P1BS-" p = false ∧
         substrIn "-M1BS-" p = false)) ∧
      (classifyModality p = none ↔
        (substrIn "-P1BS-" p = false ∧ substrIn "-M1BS-" p = false ∧
         substrIn "-A1BS-" p = false)) ∧
      (∀ (pfx : String) (r : CollectionRecord) (ft : String),
        classifyModality p = none → classify_fpaths pfx [p] r ft = r) := by
  intro p
  have hlast : ∀ (pfx : String) (r : CollectionRecord) (ft : String),
      classifyModality p = none → classify_fpaths pfx [p] r ft = r := by
    intro pfx r ft h
    by_cases hs : substrIn pfx p = true
    · simp [classify_fpaths, classifyStep, hs, h]
    · simp [classify_fpaths, classifyStep, hs]
  rcases h1 : substrIn "-P1BS-" p with _ | _ <;>
    rcases h2 : substrIn "-M1BS-" p with _ | _ <;>
      rcases h3 : substrIn "-A1BS-" p with _ | _ <;>
        exact ⟨by simp [classifyModality, h1, h2, h3],
               by simp [classifyModality, h1, h2, h3],
               by simp [classifyModality, h1, h2, h3],
               by simp [classifyModality, h1, h2, h3], hlast⟩

/-- Witness for the amended marker claim at a concrete marker-free path. -/
theorem marker_precedence_witness :
    classifyModality "plain.ntf" = none ∧
    classify_fpaths "12ABC12345678" ["plain.ntf"] initRecord "image" = initRecord :=
  ⟨by decide,
   (marker_precedence "plain.ntf").2.2.2.2 "12ABC12345678" initRecord "image" (by decide)⟩

/-- Every pair stored by one `classify_fpaths` call either was already in the
record or is a path of the processed list, containing the prefix, classified
to that modality, and keyed by the call's file type. -/
theorem classify_fpaths_mem (pfx : String) (fpaths : List String) (ft : String)
    (m : Modality) (k p : String) :
    ∀ r : CollectionRecord,
      (k, p) ∈ (classify_fpaths pfx fpaths r ft).mod m →
      (k, p) ∈ r.mod m ∨
        (p ∈ fpaths ∧ substrIn pfx p = true ∧ classifyModality p = some m ∧ k = ft) := by
  induction fpaths with
  | nil => intro r h; exact Or.inl h
  | cons a as ih =>
    intro r h
    have e : classify_fpaths pfx (a :: as) r ft =
        classify_fpaths pfx as (classifyStep pfx ft r a) ft := rfl
    rw [e] at h
    rcases ih (classifyStep pfx ft r a) h with h1 | h1
    · by_cases hs : substrIn pfx a = true
      · cases hm : classifyModality a with
        | none =>
          rw [show classifyStep pfx ft r a = r by simp [classifyStep, hs, hm]] at h1
          exact Or.inl h1
        | some m' =>
          rw [show classifyStep pfx ft r a =
              r.setMod m' (dictInsert (r.mod m') ft a) by simp [classifyStep, hs, hm]] at h1
          rw [mod_setMod] at h1
          by_cases hmm : m = m'
          · subst hmm
            rw [if_pos rfl] at h1
            rcases mem_dictInsert _ _ _ _ _ h1 with h2 | h2
            · exact Or.inl h2
            · right
              obtain ⟨hk, hp⟩ := h2
              subst hp
              exact ⟨List.mem_cons_self _ _, hs, hm, hk⟩
          · rw [if_neg hmm] at h1
            exact Or.inl h1
      · rw [show classifyStep pfx ft r a = r by simp [classifyStep, hs]] at h1
        exact Or.inl h1
    · exact Or.inr ⟨List.mem_cons_of_mem a h1.1, h1.2⟩

/-- Lookup version of `classify_fpaths_mem`: a key that reads back a path after
one `classify_fpaths` call either read it back before, or the path comes from
the processed list under the call's file type. -/
theorem classify_fpaths_lookup (pfx : String) (fpaths : List String) (ft : String)
    (m : Modality) (k p : String) :
    ∀ r : CollectionRecord,
      List.lookup k ((classify_fpaths pfx fpaths r ft).mod m) = some p →
      List.lookup k (r.mod m) = some p ∨
        (p ∈ fpaths ∧ substrIn pfx p = true ∧ classifyModality p = some m ∧ k = ft) := by
  induction fpaths with
  | nil => intro r h; exact Or.inl h
  | cons a as ih =>
    intro r h
    have e : classify_fpaths pfx (a :: as) r ft =
        classify_fpaths pfx as (classifyStep pfx ft r a) ft := rfl
    rw [e] at h
    rcases ih (classifyStep pfx ft r a) h with h1 | h1
    · by_cases hs : substrIn pfx a = true
      · cases hm : classifyModality a with
        | none =>
          rw [show classifyStep pfx ft r a = r by simp [classifyStep, hs, hm]] at h1
          exact Or.inl h1
        | some m' =>
          rw [show classifyStep pfx ft r a =
              r.setMod m' (dictInsert (r.mod m') ft a) by simp [classifyStep, hs, hm]] at h1
          rw [mod_setMod] at h1
          by_cases hmm : m = m'
          · subst hmm
            rw [if_pos rfl, lookup_dictInsert] at h1
            by_cases hk : k = ft
            · rw [if_pos hk] at h1
              have hpa : a = p := by injection h1
              subst hpa
              exact Or.inr ⟨List.mem_cons_self a as, hs, hm, hk⟩
            · rw [if_neg hk] at h1
              exact Or.inl h1
          · rw [if_neg hmm] at h1
            exact Or.inl h1
      · rw [show classifyStep pfx ft r a = r by simp [classifyStep, hs]] at h1
        exact Or.inl h1
    · exact Or.inr ⟨List.mem_cons_of_mem a h1.1, h1.2⟩

/-- The classification loop never touches the angle field. -/
theorem classify_fpaths_angle (pfx : String) (fpaths : List String) (ft : String) :
    ∀ r : CollectionRecord, (classify_fpaths pfx fpaths r ft).angle = r.angle := by
  induction fpaths with
  | nil => intro r; rfl
  | cons a as ih =>
    intro r
    have e : classify_fpaths pfx (a :: as) r ft =
        classify_fpaths pfx as (classifyStep pfx ft r a) ft := rfl
    rw [e, ih]
    unfold classifyStep
    by_cases hs : substrIn pfx a = true
    · cases hm : classifyModality a with
      | none => simp [hs, hm]
      | some m' => simp [hs, hm, angle_setMod]
    · simp [hs]

/-- Provenance of every pair stored in a built record: the path contains the
prefix, its marker selects the modality, and the role key identifies the
discovery list the path came from. -/
theorem buildRecord_mem (pfx : String) (ntf_fpaths rpc_fpaths info_fpaths : List String)
    (m : Modality) (k p : String) :
    (k, p) ∈ (buildRecord pfx ntf_fpaths rpc_fpaths info_fpaths).mod m →
    substrIn pfx p = true ∧ classifyModality p = some m ∧
      ((p ∈ ntf_fpaths ∧ k = "image") ∨ (p ∈ rpc_fpaths ∧ k = "rpc") ∨
       (p ∈ info_fpaths ∧ k = "info")) := by
  intro h
  unfold buildRecord at h
  rcases classify_fpaths_mem _ _ _ _ _ _ _ h with h1 | h1
  · rcases classify_fpaths_mem _ _ _ _ _ _ _ h1 with h2 | h2
    · rcases classify_fpaths_mem _ _ _ _ _ _ _ h2 with h3 | h3
      · cases m <;> simp [initRecord, CollectionRecord.mod] at h3
      · exact ⟨h3.2.1, h3.2.2.1, Or.inl ⟨h3.1, h3.2.2.2⟩⟩
    · exact ⟨h2.2.1, h2.2.2.1, Or.inr (Or.inl ⟨h2.1, h2.2.2.2⟩)⟩
  · exact ⟨h1.2.1, h1.2.2.1, Or.inr (Or.inr ⟨h1.1, h1.2.2.2⟩)⟩

/-- Lookup version of `buildRecord_mem`. -/
theorem buildRecord_lookup (pfx : String) (ntf_fpaths rpc_fpaths info_fpaths : List String)
    (m : Modality) (k p : String) :
    List.lookup k ((buildRecord pfx ntf_fpaths rpc_fpaths info_fpaths).mod m) = some p →
    substrIn pfx p = true ∧ classifyModality p = some m ∧
      ((p ∈ ntf_fpaths ∧ k = "image") ∨ (p ∈ rpc_fpaths ∧ k = "rpc") ∨
       (p ∈ info_fpaths ∧ k = "info")) := by
  intro h
  unfold buildRecord at h
  rcases classify_fpaths_lookup _ _ _ _ _ _ _ h with h1 | h1
  · rcases classify_fpaths_lookup _ _ _ _ _ _ _ h1 with h2 | h2
    · rcases classify_fpaths_lookup _ _ _ _ _ _ _ h2 with h3 | h3
      · cases m <;> simp [initRecord, CollectionRecord.mod, List.lookup] at h3
      · exact ⟨h3.2.1, h3.2.2.1, Or.inl ⟨h3.1, h3.2.2.2⟩⟩
    · exact ⟨h2.2.1, h2.2.2.1, Or.inr (Or.inl ⟨h2.1, h2.2.2.2⟩)⟩
  · exact ⟨h1.2.1, h1.2.2.1, Or.inr (Or.inr ⟨h1.1, h1.2.2.2⟩)⟩

/-- A built record's angle field still carries the initial sentinel. -/
theorem buildRecord_angle (pfx : String) (ntf_fpaths rpc_fpaths info_fpaths : List String) :
    (buildRecord pfx ntf_fpaths rpc_fpaths info_fpaths).angle = -1 := by
  unfold buildRecord
  rw [classify_fpaths_angle, classify_fpaths_angle, classify_fpaths_angle]
  rfl

/-- Membership in the stored path values of a record, unpacked to a pair
membership in one of the three modality dictionaries. -/
theorem mem_recordPaths (r : CollectionRecord) (p : String) :
    p ∈ recordPaths r → ∃ m k, (k, p) ∈ r.mod m := by
  intro h
  unfold recordPaths at h
  obtain ⟨⟨k, q⟩, hmem, hq⟩ := List.mem_map.mp h
  have hq' : q = p := hq
  subst hq'
  rcases List.mem_append.mp hmem with h1 | h1
  · rcases List.mem_append.mp h1 with h2 | h2
    · exact ⟨.pan, k, h2⟩
    · exact ⟨.msi, k, h2⟩
  · exact ⟨.swir, k, h1⟩

/-- Two suffixes of the same character list with equal lengths coincide. -/
theorem suffix_unique {s1 s2 x : List Char} (h1 : s1.isSuffixOf x = true)
    (h2 : s2.isSuffixOf x = true) (hlen : s1.length = s2.length) : s1 = s2 := by
  have h1' : s1 <:+ x := List.isSuffixOf_iff_suffix.mp h1
  have h2' : s2 <:+ x := List.isSuffixOf_iff_suffix.mp h2
  rw [List.suffix_iff_eq_drop] at h1' h2'
  rw [h1', h2', hlen]

/-- Concrete NTF discovery list used by the concrete evaluations below; the
first path embeds two collection identifiers. -/
def ntfW : List String :=
  ["12ABC12345678-P1BS-34DEF98765432-a.ntf",
   "12ABC12345678-M1BS-b.ntf",
   "34DEF98765432-M1BS-c.ntf"]

/-- Concrete RPC discovery list; the first path contains the first collection
identifier followed by a letter, so the dash-terminated pattern itself does
not occur in it. -/
def rpcW : List String :=
  ["gra_12ABC12345678x-P1BS-r.rpc",
   "gra_34DEF98765432-P1BS-t.rpc",
   "gra_12ABC12345678-M1BS-s.rpc",
   "gra_34DEF98765432-M1BS-u.rpc"]

/-- Concrete info-archive discovery list. -/
def infoW : List String :=
  ["12ABC12345678-P1BS-i.tar", "12ABC12345678-M1BS-j.tar",
   "34DEF98765432-P1BS-k.tar", "34DEF98765432-M1BS-l.tar"]

/-- C3 counterexample: the first NTF path is assigned as the PAN image of both
collections, so one discovered path lands in two (collection, modality, role)
triples; and the first RPC path, in which the dash-terminated pattern never
occurs, is nevertheless stored in a record because it contains a known
dash-stripped prefix as a substring. -/
theorem path_assignment_counterexample :
    ("12ABC12345678" : String) ≠ "34DEF98765432" ∧
    List.lookup "image"
      (((List.lookup "12ABC12345678" (buildCatalog ntfW rpcW infoW).1).getD initRecord).pan)
      = some "12ABC12345678-P1BS-34DEF98765432-a.ntf" ∧
    List.lookup "image"
      (((List.lookup "34DEF98765432" (buildCatalog ntfW rpcW infoW).1).getD initRecord).pan)
      = some "12ABC12345678-P1BS-34DEF98765432-a.ntf" ∧
    searchId "gra_12ABC12345678x-P1BS-r.rpc".data = none ∧
    List.lookup "rpc"
      (((List.lookup "12ABC12345678" (buildCatalog ntfW rpcW infoW).1).getD initRecord).pan)
      = some "gra_12ABC12345678x-P1BS-r.rpc" := by
  refine ⟨by decide, by decide, by decide, by decide, by decide⟩

/-- C3 amended: within one collection record a path is stored under at most
one (modality, role) pair — the modality is a function of the path's marker
and the role is determined by which suffix-filtered discovery list supplied
it — while a path containing several known dash-stripped prefixes as
substrings may be stored in several collections' records (the counterexample
exhibits one); and any path that contains no known dash-stripped prefix as a
substring is excluded from every record, so it is prefix containment, not
occurrence of the dash-terminated pattern in the path, that governs
exclusion.  Containing a known prefix does not by itself guarantee inclusion
(a marker-free or later-overwritten path is stored nowhere). -/
theorem path_assignment_amended :
    ∀ ntf_fpaths rpc_fpaths info_fpaths : List String,
      (∀ f ∈ ntf_fpaths, (".ntf".data.isSuffixOf (lowercase f).data) = true) →
      (∀ f ∈ rpc_fpaths, (".rpc".data.isSuffixOf (lowercase f).data) = true) →
      (∀ f ∈ info_fpaths, (".tar".data.isSuffixOf (lowercase f).data) = true) →
      ∀ p : String,
        ((∀ pfx ∈ extractPrefixes ntf_fpaths, substrIn pfx p = false) →
          ∀ pr ∈ (buildCatalog ntf_fpaths rpc_fpaths info_fpaths).1,
            p ∉ recordPaths pr.2) ∧
        (∀ (pfx : String) (m1 m2 : Modality) (k1 k2 : String),
          (k1, p) ∈ (buildRecord pfx ntf_fpaths rpc_fpaths info_fpaths).mod m1 →
          (k2, p) ∈ (buildRecord pfx ntf_fpaths rpc_fpaths info_fpaths).mod m2 →
          m1 = m2 ∧ k1 = k2) := by
  intro ntf_fpaths rpc_fpaths info_fpaths hntf hrpc hinfo p
  constructor
  · intro hno pr hpr hmem
    rw [buildCatalog_eq] at hpr
    obtain ⟨q, hq, rfl⟩ := List.mem_map.mp hpr
    have hqpfx : q ∈ extractPrefixes ntf_fpaths := (List.mem_filter.mp hq).1
    obtain ⟨m, k, hk⟩ := mem_recordPaths _ _ hmem
    have := (buildRecord_mem _ _ _ _ _ _ _ hk).1
    rw [hno q hqpfx] at this
    exact Bool.false_ne_true this
  · intro pfx m1 m2 k1 k2 hm1 hm2
    obtain ⟨hs1, hc1, hd1⟩ := buildRecord_mem _ _ _ _ _ _ _ hm1
    obtain ⟨hs2, hc2, hd2⟩ := buildRecord_mem _ _ _ _ _ _ _ hm2
    have hm12 : m1 = m2 := by
      rw [hc1] at hc2
      injection hc2
    refine ⟨hm12, ?_⟩
    rcases hd1 with ⟨hp1, hk1⟩ | ⟨hp1, hk1⟩ | ⟨hp1, hk1⟩ <;>
      rcases hd2 with ⟨hp2, hk2⟩ | ⟨hp2, hk2⟩ | ⟨hp2, hk2⟩ <;>
        try (rw [hk1, hk2])
    · exact absurd (suffix_unique (hntf _ hp1) (hrpc _ hp2) (by decide)) (by decide)
    · exact absurd (suffix_unique (hntf _ hp1) (hinfo _ hp2) (by decide)) (by decide)
    · exact absurd (suffix_unique (hrpc _ hp1) (hntf _ hp2) (by decide)) (by decide)
    · exact absurd (suffix_unique (hrpc _ hp1) (hinfo _ hp2) (by decide)) (by decide)
    · exact absurd (suffix_unique (hinfo _ hp1) (hntf _ hp2) (by decide)) (by decide)
    · exact absurd (suffix_unique (hinfo _ hp1) (hrpc _ hp2) (by decide)) (by decide)

/-- Witness for the amended assignment claim on the concrete discovery lists
and a path containing no known prefix. -/
theorem path_assignment_amended_witness :
    (∀ f ∈ ntfW, (".ntf".data.isSuffixOf (lowercase f).data) = true) ∧
    (∀ f ∈ rpcW, (".rpc".data.isSuffixOf (lowercase f).data) = true) ∧
    (∀ f ∈ infoW, (".tar".data.isSuffixOf (lowercase f).data) = true) ∧
    (∀ pfx ∈ extractPrefixes ntfW, substrIn pfx "unrelated.txt" = false) ∧
    (∀ pr ∈ (buildCatalog ntfW rpcW infoW).1, "unrelated.txt" ∉ recordPaths pr.2) :=
  ⟨by decide, by decide, by decide, by decide,
   (path_assignment_amended ntfW rpcW infoW (by decide) (by decide) (by decide)
     "unrelated.txt").1 (by decide)⟩

/-- C4: a collection whose PAN or MSI modality is incomplete is removed from
the working catalogue unconditionally and its prefix is listed exactly once
among the incomplete ids; conversely every listed id is an extracted prefix
whose record is incomplete and absent from the catalogue. -/
theorem incomplete_ids_removed_exactly_once :
    ∀ (ntf_fpaths rpc_fpaths info_fpaths : List String) (q : String),
      (q ∈ extractPrefixes ntf_fpaths →
        recordComplete (buildRecord q ntf_fpaths rpc_fpaths info_fpaths) = false →
        (List.count q (buildCatalog ntf_fpaths rpc_fpaths info_fpaths).2 = 1 ∧
         q ∉ (buildCatalog ntf_fpaths rpc_fpaths info_fpaths).1.map Prod.fst)) ∧
      (q ∈ (buildCatalog ntf_fpaths rpc_fpaths info_fpaths).2 →
        (q ∈ extractPrefixes ntf_fpaths ∧
         recordComplete (buildRecord q ntf_fpaths rpc_fpaths info_fpaths) = false ∧
         q ∉ (buildCatalog ntf_fpaths rpc_fpaths info_fpaths).1.map Prod.fst)) := by
  intro ntf_fpaths rpc_fpaths info_fpaths q
  have hnodup : (extractPrefixes ntf_fpaths).Nodup := by
    unfold extractPrefixes
    exact List.nodup_dedup _
  have hcatmap : (buildCatalog ntf_fpaths rpc_fpaths info_fpaths).1.map Prod.fst =
      (extractPrefixes ntf_fpaths).filter
        (fun x => recordComplete (buildRecord x ntf_fpaths rpc_fpaths info_fpaths)) := by
    have hid : ∀ l : List String,
        List.map (Prod.fst ∘ fun x => (x, buildRecord x ntf_fpaths rpc_fpaths info_fpaths)) l
          = l := by
      intro l
      induction l with
      | nil => rfl
      | cons a as ih => simp [ih]
    rw [buildCatalog_eq]
    simp only [List.map_map]
    exact hid _
  have hnotin : recordComplete (buildRecord q ntf_fpaths rpc_fpaths info_fpaths) = false →
      q ∉ (buildCatalog ntf_fpaths rpc_fpaths info_fpaths).1.map Prod.fst := by
    intro hic hmem
    rw [hcatmap] at hmem
    have := (List.mem_filter.mp hmem).2
    rw [hic] at this
    exact Bool.false_ne_true this
  constructor
  · intro hq hic
    refine ⟨?_, hnotin hic⟩
    rw [buildCatalog_eq]
    have hmem : q ∈ (extractPrefixes ntf_fpaths).filter
        (fun x => !recordComplete (buildRecord x ntf_fpaths rpc_fpaths info_fpaths)) := by
      refine List.mem_filter.mpr ⟨hq, ?_⟩
      rw [hic]
      rfl
    exact List.count_eq_one_of_mem (hnodup.filter _) hmem
  · intro hq
    rw [buildCatalog_eq] at hq
    obtain ⟨hq1, hq2⟩ := List.mem_filter.mp hq
    have hic : recordComplete (buildRecord q ntf_fpaths rpc_fpaths info_fpaths) = false := by
      rcases h : recordComplete (buildRecord q ntf_fpaths rpc_fpaths info_fpaths) with _ | _
      · rfl
      · rw [h] at hq2
        exact absurd hq2 (by decide)
    exact ⟨hq1, hic, hnotin hic⟩

/-- Witness for the incomplete-removal claim: a collection with only a PAN
image is removed and listed once. -/
theorem incomplete_ids_witness :
    ("99XYZ00000001" ∈ extractPrefixes ["99XYZ00000001-P1BS-a.ntf"]) ∧
    recordComplete (buildRecord "99XYZ00000001" ["99XYZ00000001-P1BS-a.ntf"] [] []) = false ∧
    (List.count "99XYZ00000001" (buildCatalog ["99XYZ00000001-P1BS-a.ntf"] [] []).2 = 1 ∧
     "99XYZ00000001" ∉ (buildCatalog ["99XYZ00000001-P1BS-a.ntf"] [] []).1.map Prod.fst) :=
  ⟨by decide, by decide,
   (incomplete_ids_removed_exactly_once ["99XYZ00000001-P1BS-a.ntf"] [] [] "99XYZ00000001").1
     (by decide) (by decide)⟩

/-- Filesystem model for `create_working_dir`: the set of directories that
exist, as a list of path strings. -/
abbrev DirSet := List String

/-- `create_working_dir` (lines 31-53).  `working_dir` is the configured hint
(`none` when the `work_dir` key is absent), `ts` stands for the integral part
of the creation timestamp used for the synthesised default name, and `realp`
abstracts `os.path.realpath`.  Returns the directory set after any `os.mkdir`
together with the result: the working directory, or the raised `ValueError`
message.  The containment test is the source's literal substring test
`os.path.realpath(imagery_dir) in os.path.realpath(working_dir)` (line 50). -/
def create_working_dir (dirs : DirSet) (working_dir : Option String) (ts : String)
    (imagery_dir : String) (realp : String → String) : DirSet × Except String String :=
  let wd := match working_dir with
    | none => "danesfield-" ++ ts
    | some s => if s.isEmpty then "danesfield-" ++ ts else s
  let dirs' := if dirs.contains wd then dirs else wd :: dirs
  if substrIn (realp imagery_dir) (realp wd) then
    (dirs', Except.error ("The working directory (" ++ wd ++
      ") is a subdirectory of the imagery directory (" ++ imagery_dir ++ ")."))
  else (dirs', Except.ok wd)

/-- Splits a character list at every `/`, accumulating the current component
in reverse; models `str.split('/')`. -/
def splitSlash : List Char → List Char → List (List Char)
  | acc, [] => [acc.reverse]
  | acc, c :: cs => if c == '/' then acc.reverse :: splitSlash [] cs else splitSlash (c :: acc) cs

/-- Modelled from the spec: the working directory is nested under-or-equal-to
the imagery root when the canonical imagery path's components are a prefix of
the canonical working path's components. -/
def nestedUnderOrEqual (work imagery : String) : Bool :=
  (splitSlash [] imagery.data).isPrefixOf (splitSlash [] work.data)

/-- C1: the containment check of `create_working_dir` is a plain substring
test, so the sibling directory `/data/aoi_work`, which is not nested under
the imagery root `/data/aoi`, is nevertheless rejected with the
is-a-subdirectory `ValueError` — contradicting the function's own docstring,
which promises the error only for subdirectories of the imagery directory. -/
theorem workdir_check_rejects_non_nested_sibling :
    (create_working_dir ["/data/aoi_work"] (some "/data/aoi_work") "0" "/data/aoi" id).2 =
      Except.error ("The working directory (/data/aoi_work) is a subdirectory " ++
        "of the imagery directory (/data/aoi).") ∧
    nestedUnderOrEqual "/data/aoi_work" "/data/aoi" = false ∧
    (create_working_dir ["/data/aoi/work"] (some "/data/aoi/work") "0" "/data/aoi" id).2 =
      Except.error ("The working directory (/data/aoi/work) is a subdirectory " ++
        "of the imagery directory (/data/aoi).") ∧
    nestedUnderOrEqual "/data/aoi/work" "/data/aoi" = true := by
  refine ⟨by rfl, by decide, by rfl, by decide⟩

/-- C8: the working directory is created before the containment check runs, so
when the check raises, the freshly created directory is left behind — the
error branch is not atomic with respect to the filesystem. -/
theorem workdir_created_before_containment_check :
    ∀ (dirs : DirSet) (hint ts imagery : String) (realp : String → String),
      dirs.contains hint = false →
      hint.isEmpty = false →
      substrIn (realp imagery) (realp hint) = true →
      ((create_working_dir dirs (some hint) ts imagery realp).1.contains hint = true ∧
       ∃ e, (create_working_dir dirs (some hint) ts imagery realp).2 = Except.error e) := by
  intro dirs hint ts imagery realp h1 h2 h3
  unfold create_working_dir
  simp only [h2, Bool.false_eq_true, if_false, h1, h3, if_true]
  constructor
  · simp
  · exact ⟨_, rfl⟩

/-- Witness for the non-atomic error branch at a concrete missing directory
nested inside the imagery root. -/
theorem workdir_created_before_check_witness :
    (([] : DirSet).contains "/data/aoi/work" = false) ∧
    ("/data/aoi/work" : String).isEmpty = false ∧
    substrIn (id "/data/aoi") (id "/data/aoi/work") = true ∧
    ((create_working_dir [] (some "/data/aoi/work") "0" "/data/aoi" id).1.contains
        "/data/aoi/work" = true ∧
     ∃ e, (create_working_dir [] (some "/data/aoi/work") "0" "/data/aoi" id).2 =
        Except.error e) :=
  ⟨by decide, by decide, by decide,
   workdir_created_before_containment_check [] "/data/aoi/work" "0" "/data/aoi" id
     (by decide) (by decide) (by decide)⟩

/-- One command-line argument of a stage invocation: a path or literal string,
or the printed ground sample distance (whose float formatting is abstracted,
keeping the exact parsed value). -/
inductive Arg where
  | s (v : String)
  | gsdVal (v : Rat)
deriving DecidableEq

/-- One stage invocation: the called module and its argument list. -/
structure Call where
  stage : String
  args : List Arg
deriving DecidableEq

/-- The configuration values read from the ini file by `main` (lines 117-134,
201, 307-311, 330-331, 409-410).  `gsd` holds the exact value of
`float(config['params']['gsd'])` when the key is present (float parsing is
abstracted to the parsed rational). -/
structure Config where
  imagery_dir : String
  work_dir : Option String
  rpc_dir : String
  p3d_fpath : String
  aoi_name : String
  gsd : Option Rat
  bounds : Option String
  material_model_fpath : String
  material_batch_size : Option String
  material_cuda : Bool
  roof_model_dir : String
  roof_model_prefix : String
  metrics_ref_data_dir : String
  metrics_ref_data_prefix : String

/-- `float(config['params'].get('gsd', 0.25))` (line 128): the configured
value, defaulting to a quarter. -/
def gsdOf (c : Config) : Rat :=
  c.gsd.getD (1 / 4)

/-- `os.path.join(a, b)` for a non-empty `a` without trailing separator and a
relative `b`, the only shapes the orchestrator produces. -/
def pathJoin (a b : String) : String :=
  a ++ "/" ++ b

/-- `os.path.split(p)[1]`: everything after the last slash. -/
def pathSplitBase (p : String) : String :=
  String.mk ((p.data.reverse.takeWhile (fun c => c != '/')).reverse)

/-- The stem part of `os.path.splitext(n)`: drop the extension starting at the
last dot, ignoring any leading dots of the name. -/
def splitextStem (n : String) : String :=
  let cs := n.data
  let lead := cs.takeWhile (fun c => c == '.')
  let rest := cs.drop lead.length
  if rest.any (fun c => c == '.') then
    String.mk (lead ++ ((rest.reverse.dropWhile (fun c => c != '.')).drop 1).reverse)
  else n

/-- Python truthiness of `d.get(k, None)` for string values: `None` and the
empty string are falsy. -/
def truthyStr (o : Option String) : Option String :=
  match o with
  | some s => if s.isEmpty then none else some s
  | none => none

/-- Maps a fallible function over a list, failing when any element fails;
models a loop that indexes dictionaries and would raise `KeyError`. -/
def optMap {α β : Type} (f : α → Option β) : List α → Option (List β)
  | [] => some []
  | a :: as =>
    match f a, optMap f as with
    | some b, some bs => some (b :: bs)
    | _, _ => none

/-- The surface-model stage call (lines 197-208): output raster
`<aoi>_P3D_DSM.tif`, the point-cloud source, the ground sample distance and
the optional AOI bounds. -/
def generate_dsm_call (c : Config) (wd : String) : Call :=
  { stage := "generate_dsm"
    args := [Arg.s (pathJoin wd (c.aoi_name ++ "_P3D_DSM.tif")), Arg.s "-s",
             Arg.s c.p3d_fpath, Arg.s "--gsd", Arg.gsdVal (gsdOf c)] ++
      (match c.bounds with
       | some b => Arg.s "--bounds" :: (b.splitOn " ").map Arg.s
       | none => []) }

/-- One iteration of the orthorectification loop (lines 227-239): reads the
MSI image, builds the `<image-stem>_ortho.tif` output path, appends the
`--raytheon-rpc` pair when the record holds a truthy MSI rpc path, and stores
the ortho path back into the record's MSI dictionary. -/
def orthoStep (wd dsm dtm : String) (pr : String × CollectionRecord) :
    Option (Call × (String × CollectionRecord)) :=
  match List.lookup "image" pr.2.msi with
  | none => none
  | some msi_ntf =>
    let ortho := pathJoin wd (splitextStem (pathSplitBase msi_ntf) ++ "_ortho.tif")
    let rpcArgs := match truthyStr (List.lookup "rpc" pr.2.msi) with
      | some fp => [Arg.s "--raytheon-rpc", Arg.s fp]
      | none => []
    some (⟨"orthorectify",
            [Arg.s msi_ntf, Arg.s dsm, Arg.s ortho, Arg.s "--dtm", Arg.s dtm] ++ rpcArgs⟩,
          (pr.1, { pr.2 with msi := dictInsert pr.2.msi "ortho_img_fpath" ortho }))

/-- One iteration of the texture-preparation loop (lines 341-352): PAN image,
optional truthy PAN rpc, MSI image, optional truthy MSI rpc. -/
def crop_call (wd dsm : String) (pr : String × CollectionRecord) : Option Call :=
  match List.lookup "image" pr.2.pan, List.lookup "image" pr.2.msi with
  | some pan_img, some msi_img =>
    let panRpc := match truthyStr (List.lookup "rpc" pr.2.pan) with
      | some fp => [Arg.s fp]
      | none => []
    let msiRpc := match truthyStr (List.lookup "rpc" pr.2.msi) with
      | some fp => [Arg.s fp]
      | none => []
    some ⟨"crop_and_pansharpen",
          [Arg.s dsm, Arg.s wd, Arg.s "--pan", Arg.s pan_img] ++ panRpc ++
          [Arg.s "--msi", Arg.s msi_img] ++ msiRpc⟩
  | _, _ => none

/-- The mesh filter applied to both `.obj` globs (lines 357-358 and 380-381):
drop any path containing the occlusion-mesh name `xxxx.obj` or the generated
per-building marker `building_`. -/
def meshFilter (objGlob : List String) : List String :=
  objGlob.filter (fun e => !(substrIn "xxxx.obj" e) && !(substrIn "building_" e))

/-- The ordered stage invocations of `main` (lines 197-417).  `wd` is the
working directory, `catalog` the validated collection catalogue, and the three
glob arguments stand for the results of the filesystem globs the source
performs between stages: `*_crop_pansharpened_processed.tif` (line 355) and
the two `*.obj` globs (lines 356 and 378).  The result is `none` exactly when
a record misses a dictionary key that the source would index directly
(raising `KeyError`). -/
def pipelineTrace (c : Config) (wd : String) (catalog : List (String × CollectionRecord))
    (cropsGlob objGlobTexture objGlobBuildings : List String) : Option (List Call) :=
  let dsm := pathJoin wd (c.aoi_name ++ "_P3D_DSM.tif")
  let dtm := pathJoin wd (c.aoi_name ++ "_DTM.tif")
  match optMap (orthoStep wd dsm dtm) catalog with
  | none => none
  | some orthoPairs =>
    let orthoCalls := orthoPairs.map Prod.fst
    let catalog2 := orthoPairs.map Prod.snd
    match optMap (fun pr => List.lookup "ortho_img_fpath" pr.2.msi) catalog2,
          optMap (fun pr => List.lookup "info" pr.2.msi) catalog2,
          optMap (crop_call wd dsm) catalog2 with
    | some imgPaths, some infoPaths, some cropCalls =>
      let ndvi := pathJoin wd "ndvi.tif"
      let ndviCall : Call := ⟨"compute_ndvi",
        (catalog2.filterMap (fun pr => List.lookup "ortho_img_fpath" pr.2.msi)).map Arg.s ++
          [Arg.s ndvi]⟩
      let roadCall : Call := ⟨"get_road_vector",
        [Arg.s "--bounding-img", Arg.s dsm, Arg.s "--output-dir", Arg.s wd]⟩
      let thresholdMask := pathJoin wd "threshold_CLS.tif"
      let segCall : Call := ⟨"segment_by_height",
        [Arg.s dsm, Arg.s dtm, Arg.s thresholdMask, Arg.s "--input-ndvi", Arg.s ndvi,
         Arg.s "--road-vector", Arg.s (pathJoin wd "road_vector.geojson"),
         Arg.s "--road-rasterized", Arg.s (pathJoin wd "road_rasterized.tif"),
         Arg.s "--road-rasterized-bridge", Arg.s (pathJoin wd "road_rasterized_bridge.tif")]⟩
      let matCall : Call := ⟨"material_classifier",
        [Arg.s "--image_paths"] ++ imgPaths.map Arg.s ++
        [Arg.s "--info_paths"] ++ infoPaths.map Arg.s ++
        [Arg.s "--output_dir", Arg.s wd, Arg.s "--model_path", Arg.s c.material_model_fpath,
         Arg.s "--outfile_prefix", Arg.s c.aoi_name] ++
        (match c.material_batch_size with
         | some bs => [Arg.s "--batch_size", Arg.s bs]
         | none => []) ++
        (if c.material_cuda then [Arg.s "--cuda"] else [])⟩
      let roofCall : Call := ⟨"roof_geon_extraction",
        [Arg.s "--las", Arg.s c.p3d_fpath, Arg.s "--cls", Arg.s thresholdMask,
         Arg.s "--dtm", Arg.s dtm, Arg.s "--model_dir", Arg.s c.roof_model_dir,
         Arg.s "--model_prefix", Arg.s c.roof_model_prefix, Arg.s "--output_dir", Arg.s wd]⟩
      let texCall : Call := ⟨"texture_mapping",
        [Arg.s dsm, Arg.s dtm, Arg.s wd, Arg.s "xxxx.obj", Arg.s "--crops"] ++
        cropsGlob.map Arg.s ++ [Arg.s "--buildings"] ++ (meshFilter objGlobTexture).map Arg.s⟩
      let objList := meshFilter objGlobBuildings
      let b2dDsmCall : Call := ⟨"buildings_to_dsm",
        [Arg.s dtm, Arg.s (pathJoin wd "buildings_to_dsm_DSM.tif"),
         Arg.s "--input_obj_paths"] ++ objList.map Arg.s⟩
      let b2dClsCall : Call := ⟨"buildings_to_dsm",
        [Arg.s dtm, Arg.s (pathJoin wd "buildings_to_dsm_CLS.tif"), Arg.s "--render_cls",
         Arg.s "--input_obj_paths"] ++ objList.map Arg.s⟩
      let metricsCall : Call := ⟨"run_metrics",
        [Arg.s "--output-dir", Arg.s (pathJoin wd "metrics"),
         Arg.s "--ref-dir", Arg.s c.metrics_ref_data_dir,
         Arg.s "--ref-prefix", Arg.s c.metrics_ref_data_prefix,
         Arg.s "--dsm", Arg.s (pathJoin wd "buildings_to_dsm_DSM.tif"),
         Arg.s "--cls", Arg.s (pathJoin wd "buildings_to_dsm_CLS.tif"),
         Arg.s "--mtl", Arg.s (pathJoin wd (c.aoi_name ++ "_MTL.tif")),
         Arg.s "--dtm", Arg.s dtm]⟩
      some ([generate_dsm_call c wd, ⟨"fit_dtm", [Arg.s dsm, Arg.s dtm]⟩] ++ orthoCalls ++
        [ndviCall, roadCall, segCall, matCall, roofCall] ++ cropCalls ++
        [texCall, b2dDsmCall, b2dClsCall, metricsCall])
    | _, _, _ => none

/-- Every element produced by `optMap` comes from some source element. -/
theorem optMap_mem {α β : Type} (f : α → Option β) :
    ∀ (l : List α) (bs : List β), optMap f l = some bs →
      ∀ b ∈ bs, ∃ a ∈ l, f a = some b := by
  intro l
  induction l with
  | nil =>
    intro bs h b hb
    simp [optMap] at h
    subst h
    cases hb
  | cons a as ih =>
    intro bs h b hb
    unfold optMap at h
    cases hfa : f a with
    | none => rw [hfa] at h; exact absurd h (by simp)
    | some b0 =>
      rw [hfa] at h
      cases hrest : optMap f as with
      | none => rw [hrest] at h; exact absurd h (by simp)
      | some bs0 =>
        rw [hrest] at h
        have hbs : bs = b0 :: bs0 := by injection h; simp_all
        subst hbs
        rcases List.mem_cons.mp hb with hb1 | hb1
        · exact ⟨a, List.mem_cons_self _ _, hb1 ▸ hfa⟩
        · obtain ⟨a', ha', hfa'⟩ := ih bs0 hrest b hb1
          exact ⟨a', List.mem_cons_of_mem _ ha', hfa'⟩

/-- Every call built by the orthorectification loop targets `orthorectify`. -/
theorem orthoStep_stage (wd dsm dtm : String) (pr : String × CollectionRecord)
    (out : Call × (String × CollectionRecord)) :
    orthoStep wd dsm dtm pr = some out → out.1.stage = "orthorectify" := by
  intro h
  unfold orthoStep at h
  cases hl : List.lookup "image" pr.2.msi with
  | none => rw [hl] at h; exact absurd h (by simp)
  | some img =>
    rw [hl] at h
    simp only [Option.some.injEq] at h
    rw [← h]

/-- Every call built by the texture-preparation loop targets
`crop_and_pansharpen`. -/
theorem crop_call_stage (wd dsm : String) (pr : String × CollectionRecord) (cl : Call) :
    crop_call wd dsm pr = some cl → cl.stage = "crop_and_pansharpen" := by
  intro h
  unfold crop_call at h
  cases hp : List.lookup "image" pr.2.pan with
  | none => rw [hp] at h; exact absurd h (by simp)
  | some pimg =>
    rw [hp] at h
    cases hm : List.lookup "image" pr.2.msi with
    | none => rw [hm] at h; exact absurd h (by simp)
    | some mimg =>
      rw [hm] at h
      simp only [Option.some.injEq] at h
      rw [← h]

/-- C6: the buildings-to-raster stage is invoked exactly twice, first for the
elevation raster `buildings_to_dsm_DSM.tif` and then for the classification
raster `buildings_to_dsm_CLS.tif`, both against the terrain model and both
with the same mesh list: the `.obj` glob of the working directory filtered of
the occlusion mesh and of the generated `building_` meshes. -/
theorem buildings_to_dsm_runs_twice :
    ∀ (c : Config) (wd : String) (catalog : List (String × CollectionRecord))
      (g1 g2 g3 : List String) (calls : List Call),
      pipelineTrace c wd catalog g1 g2 g3 = some calls →
      calls.filter (fun cl => cl.stage == "buildings_to_dsm") =
        [⟨"buildings_to_dsm",
          [Arg.s (pathJoin wd (c.aoi_name ++ "_DTM.tif")),
           Arg.s (pathJoin wd "buildings_to_dsm_DSM.tif"), Arg.s "--input_obj_paths"] ++
          (meshFilter g3).map Arg.s⟩,
         ⟨"buildings_to_dsm",
          [Arg.s (pathJoin wd (c.aoi_name ++ "_DTM.tif")),
           Arg.s (pathJoin wd "buildings_to_dsm_CLS.tif"), Arg.s "--render_cls",
           Arg.s "--input_obj_paths"] ++ (meshFilter g3).map Arg.s⟩] := by
  intro c wd catalog g1 g2 g3 calls h
  unfold pipelineTrace at h
  simp only [] at h
  cases hop : optMap (orthoStep wd (pathJoin wd (c.aoi_name ++ "_P3D_DSM.tif"))
      (pathJoin wd (c.aoi_name ++ "_DTM.tif"))) catalog with
  | none => rw [hop] at h; simp at h
  | some orthoPairs =>
    rw [hop] at h
    simp only [] at h
    cases himg : optMap (fun pr => List.lookup "ortho_img_fpath" pr.2.msi)
        (orthoPairs.map Prod.snd) with
    | none => rw [himg] at h; simp at h
    | some imgPaths =>
      rw [himg] at h
      cases hinfo : optMap (fun pr => List.lookup "info" pr.2.msi)
          (orthoPairs.map Prod.snd) with
      | none => rw [hinfo] at h; simp at h
      | some infoPaths =>
        rw [hinfo] at h
        cases hcrop : optMap (crop_call wd (pathJoin wd (c.aoi_name ++ "_P3D_DSM.tif")))
            (orthoPairs.map Prod.snd) with
        | none => rw [hcrop] at h; simp at h
        | some cropCalls =>
          rw [hcrop] at h
          simp only [Option.some.injEq] at h
          subst h
          have horth : ∀ cl ∈ orthoPairs.map Prod.fst,
              (cl.stage == "buildings_to_dsm") = false := by
            intro cl hcl
            obtain ⟨pair, hpair, hfst⟩ := List.mem_map.mp hcl
            obtain ⟨pr, _, hstep⟩ := optMap_mem _ _ _ hop pair hpair
            have hst := orthoStep_stage _ _ _ _ _ hstep
            rw [hfst] at hst
            rw [hst]
            rfl
          have hcrops : ∀ cl ∈ cropCalls, (cl.stage == "buildings_to_dsm") = false := by
            intro cl hcl
            obtain ⟨pr, _, hstep⟩ := optMap_mem _ _ _ hcrop cl hcl
            have hst := crop_call_stage _ _ _ _ hstep
            rw [hst]
            rfl
          simp only [List.filter_append, List.filter_cons, List.filter_nil]
          rw [List.filter_eq_nil_iff.mpr (by simpa using horth),
              List.filter_eq_nil_iff.mpr (by simpa using hcrops)]
          simp [generate_dsm_call]

/-- C7: the shared derived artifacts keep their fixed names under the working
directory — `<aoi>_P3D_DSM.tif`, `<aoi>_DTM.tif`, `ndvi.tif`,
`threshold_CLS.tif`, `buildings_to_dsm_DSM.tif`, `buildings_to_dsm_CLS.tif`,
`<aoi>_MTL.tif` and the `metrics` subdirectory — at the corresponding stage
argument positions, and when the configuration has no `gsd` key the surface
model generation receives the default ground sample distance of 0.25. -/
theorem fixed_output_names_and_gsd_default :
    ∀ (c : Config) (wd : String) (catalog : List (String × CollectionRecord))
      (g1 g2 g3 : List String) (calls : List Call),
      c.gsd = none →
      pipelineTrace c wd catalog g1 g2 g3 = some calls →
      (∃ tail, Call.mk "generate_dsm"
          ([Arg.s (wd ++ "/" ++ (c.aoi_name ++ "_P3D_DSM.tif")), Arg.s "-s",
            Arg.s c.p3d_fpath, Arg.s "--gsd", Arg.gsdVal (1 / 4)] ++ tail) ∈ calls) ∧
      Call.mk "fit_dtm" [Arg.s (wd ++ "/" ++ (c.aoi_name ++ "_P3D_DSM.tif")),
          Arg.s (wd ++ "/" ++ (c.aoi_name ++ "_DTM.tif"))] ∈ calls ∧
      (∃ srcs, Call.mk "compute_ndvi" (srcs ++ [Arg.s (wd ++ "/" ++ "ndvi.tif")]) ∈ calls) ∧
      (∃ tail, Call.mk "segment_by_height"
          (Arg.s (wd ++ "/" ++ (c.aoi_name ++ "_P3D_DSM.tif")) ::
           Arg.s (wd ++ "/" ++ (c.aoi_name ++ "_DTM.tif")) ::
           Arg.s (wd ++ "/" ++ "threshold_CLS.tif") :: tail) ∈ calls) ∧
      (∃ objs, Call.mk "buildings_to_dsm"
          ([Arg.s (wd ++ "/" ++ (c.aoi_name ++ "_DTM.tif")),
            Arg.s (wd ++ "/" ++ "buildings_to_dsm_DSM.tif"),
            Arg.s "--input_obj_paths"] ++ objs) ∈ calls) ∧
      (∃ objs, Call.mk "buildings_to_dsm"
          ([Arg.s (wd ++ "/" ++ (c.aoi_name ++ "_DTM.tif")),
            Arg.s (wd ++ "/" ++ "buildings_to_dsm_CLS.tif"), Arg.s "--render_cls",
            Arg.s "--input_obj_paths"] ++ objs) ∈ calls) ∧
      Call.mk "run_metrics"
          [Arg.s "--output-dir", Arg.s (wd ++ "/" ++ "metrics"),
           Arg.s "--ref-dir", Arg.s c.metrics_ref_data_dir,
           Arg.s "--ref-prefix", Arg.s c.metrics_ref_data_prefix,
           Arg.s "--dsm", Arg.s (wd ++ "/" ++ "buildings_to_dsm_DSM.tif"),
           Arg.s "--cls", Arg.s (wd ++ "/" ++ "buildings_to_dsm_CLS.tif"),
           Arg.s "--mtl", Arg.s (wd ++ "/" ++ (c.aoi_name ++ "_MTL.tif")),
           Arg.s "--dtm", Arg.s (wd ++ "/" ++ (c.aoi_name ++ "_DTM.tif"))] ∈ calls := by
  intro c wd catalog g1 g2 g3 calls hg h
  unfold pipelineTrace at h
  simp only [] at h
  cases hop : optMap (orthoStep wd (pathJoin wd (c.aoi_name ++ "_P3D_DSM.tif"))
      (pathJoin wd (c.aoi_name ++ "_DTM.tif"))) catalog with
  | none => rw [hop] at h; simp at h
  | some orthoPairs =>
    rw [hop] at h
    simp only [] at h
    cases himg : optMap (fun pr => List.lookup "ortho_img_fpath" pr.2.msi)
        (orthoPairs.map Prod.snd) with
    | none => rw [himg] at h; simp at h
    | some imgPaths =>
      rw [himg] at h
      cases hinfo : optMap (fun pr => List.lookup "info" pr.2.msi)
          (orthoPairs.map Prod.snd) with
      | none => rw [hinfo] at h; simp at h
      | some infoPaths =>
        rw [hinfo] at h
        cases hcrop : optMap (crop_call wd (pathJoin wd (c.aoi_name ++ "_P3D_DSM.tif")))
            (orthoPairs.map Prod.snd) with
        | none => rw [hcrop] at h; simp at h
        | some cropCalls =>
          rw [hcrop] at h
          simp only [Option.some.injEq] at h
          subst h
          refine ⟨⟨(match c.bounds with
                     | some b => Arg.s "--bounds" :: (b.splitOn " ").map Arg.s
                     | none => []), ?_⟩, ?_,
                  ⟨((orthoPairs.map Prod.snd).filterMap
                      (fun pr => List.lookup "ortho_img_fpath" pr.2.msi)).map Arg.s, ?_⟩,
                  ⟨[Arg.s "--input-ndvi", Arg.s (wd ++ "/" ++ "ndvi.tif"),
                    Arg.s "--road-vector", Arg.s (wd ++ "/" ++ "road_vector.geojson"),
                    Arg.s "--road-rasterized", Arg.s (wd ++ "/" ++ "road_rasterized.tif"),
                    Arg.s "--road-rasterized-bridge",
                    Arg.s (wd ++ "/" ++ "road_rasterized_bridge.tif")], ?_⟩,
                  ⟨(meshFilter g3).map Arg.s, ?_⟩,
                  ⟨(meshFilter g3).map Arg.s, ?_⟩, ?_⟩ <;>
            simp [generate_dsm_call, gsdOf, hg, pathJoin]

/-- Overwrites the angle field, leaving the modality dictionaries unchanged. -/
def setAngle (r : CollectionRecord) (a : Int) : CollectionRecord :=
  { r with angle := a }

/-- Changing a record's angle commutes with the orthorectification step. -/
theorem orthoStep_setAngle (wd dsm dtm : String) (a : Int) :
    ∀ pr : String × CollectionRecord,
      orthoStep wd dsm dtm (pr.1, setAngle pr.2 a) =
        (orthoStep wd dsm dtm pr).map
          (fun out => (out.1, (out.2.1, setAngle out.2.2 a))) := by
  intro pr
  unfold orthoStep setAngle
  cases hl : List.lookup "image" pr.2.msi with
  | none => simp [hl]
  | some img => simp [hl]

/-- `optMap` over a mapped list, when the function commutes with the map. -/
theorem optMap_comm {α β : Type} (f : α → Option β) (g : α → α) (h : β → β)
    (hc : ∀ x, f (g x) = (f x).map h) :
    ∀ l : List α, optMap f (l.map g) = (optMap f l).map (List.map h) := by
  intro l
  induction l with
  | nil => rfl
  | cons a as ih =>
    cases hfa : f a with
    | none =>
      have h1 : f (g a) = none := by rw [hc a, hfa]; rfl
      simp [optMap, h1, hfa]
    | some b =>
      have h1 : f (g a) = some (h b) := by rw [hc a, hfa]; rfl
      cases hrest : optMap f as with
      | none => simp [optMap, h1, hfa, hrest, ih]
      | some bs => simp [optMap, h1, hfa, hrest, ih]

/-- `optMap` after a plain `List.map`. -/
theorem optMap_map {α β γ : Type} (f : β → Option γ) (g : α → β) :
    ∀ l : List α, optMap f (l.map g) = optMap (fun x => f (g x)) l := by
  intro l
  induction l with
  | nil => rfl
  | cons a as ih => simp [optMap, ih]

/-- The full stage trace is oblivious to the records' angle fields. -/
theorem pipelineTrace_setAngle :
    ∀ (c : Config) (wd : String) (catalog : List (String × CollectionRecord))
      (g1 g2 g3 : List String) (a : Int),
      pipelineTrace c wd (catalog.map (fun pr => (pr.1, setAngle pr.2 a))) g1 g2 g3 =
        pipelineTrace c wd catalog g1 g2 g3 := by
  intro c wd catalog g1 g2 g3 a
  unfold pipelineTrace
  simp only []
  rw [optMap_comm (orthoStep wd (pathJoin wd (c.aoi_name ++ "_P3D_DSM.tif"))
        (pathJoin wd (c.aoi_name ++ "_DTM.tif")))
      (fun pr : String × CollectionRecord => (pr.1, setAngle pr.2 a))
      (fun out => (out.1, (out.2.1, setAngle out.2.2 a)))
      (fun pr => orthoStep_setAngle _ _ _ a pr) catalog]
  cases hop : optMap (orthoStep wd (pathJoin wd (c.aoi_name ++ "_P3D_DSM.tif"))
      (pathJoin wd (c.aoi_name ++ "_DTM.tif"))) catalog with
  | none => rfl
  | some pairs =>
    simp only [Option.map_some', List.map_map, optMap_map, List.filterMap_map]
    rfl

/-- A record is complete exactly when PAN and MSI can each look up all three
role keys. -/
theorem recordComplete_lookup (r : CollectionRecord) :
    recordComplete r = true ↔
      ((List.lookup "image" r.pan).isSome ∧ (List.lookup "info" r.pan).isSome ∧
       (List.lookup "rpc" r.pan).isSome ∧ (List.lookup "image" r.msi).isSome ∧
       (List.lookup "info" r.msi).isSome ∧ (List.lookup "rpc" r.msi).isSome) := by
  simp [recordComplete, ensure_complete_modality, and_assoc]

/-- C9: every record of the working catalogue still carries the sentinel angle
`-1`, the orthorectification loop is the only record mutation and it preserves
the angle, and the whole stage trace is unchanged if every record's angle is
overwritten — no most-nadir selection by obliquity angle ever occurs. -/
theorem angle_sentinel_never_written :
    (∀ ntf_fpaths rpc_fpaths info_fpaths : List String,
       ∀ pr ∈ (buildCatalog ntf_fpaths rpc_fpaths info_fpaths).1, pr.2.angle = -1) ∧
    (∀ (wd dsm dtm : String) (pr : String × CollectionRecord)
       (out : Call × (String × CollectionRecord)),
       orthoStep wd dsm dtm pr = some out → out.2.2.angle = pr.2.angle) ∧
    (∀ (c : Config) (wd : String) (catalog : List (String × CollectionRecord))
       (g1 g2 g3 : List String) (a : Int),
       pipelineTrace c wd (catalog.map (fun pr => (pr.1, setAngle pr.2 a))) g1 g2 g3 =
         pipelineTrace c wd catalog g1 g2 g3) := by
  refine ⟨?_, ?_, pipelineTrace_setAngle⟩
  · intro ntf_fpaths rpc_fpaths info_fpaths pr hpr
    rw [buildCatalog_eq] at hpr
    obtain ⟨q, hq, rfl⟩ := List.mem_map.mp hpr
    exact buildRecord_angle _ _ _ _
  · intro wd dsm dtm pr out h
    unfold orthoStep at h
    cases hl : List.lookup "image" pr.2.msi with
    | none => rw [hl] at h; exact absurd h (by simp)
    | some img =>
      rw [hl] at h
      simp only [Option.some.injEq] at h
      rw [← h]

/-- Witness for the angle sentinel on the concrete catalogue. -/
theorem angle_sentinel_witness :
    (("12ABC12345678", buildRecord "12ABC12345678" ntfW rpcW infoW) ∈
      (buildCatalog ntfW rpcW infoW).1) ∧
    (buildRecord "12ABC12345678" ntfW rpcW infoW).angle = -1 :=
  ⟨by decide,
   angle_sentinel_never_written.1 ntfW rpcW infoW
     ("12ABC12345678", buildRecord "12ABC12345678" ntfW rpcW infoW) (by decide)⟩

/-- C10: for every record surviving completeness validation (which ran with
`require_rpc=True`), and non-empty discovered rpc paths, the optional rpc
branches are taken: the orthorectification call carries
`--raytheon-rpc <msi-rpc>`, and the crop-and-pansharpen call carries both the
PAN and the MSI rpc path. -/
theorem rpc_branches_always_taken :
    ∀ (ntf_fpaths rpc_fpaths info_fpaths : List String),
      (∀ p ∈ rpc_fpaths, p.isEmpty = false) →
      ∀ (wd dsm dtm : String),
        ∀ pr ∈ (buildCatalog ntf_fpaths rpc_fpaths info_fpaths).1,
          (∃ img rpc_p upd,
            List.lookup "image" pr.2.msi = some img ∧
            List.lookup "rpc" pr.2.msi = some rpc_p ∧
            orthoStep wd dsm dtm pr = some
              (⟨"orthorectify",
                [Arg.s img, Arg.s dsm,
                 Arg.s (pathJoin wd (splitextStem (pathSplitBase img) ++ "_ortho.tif")),
                 Arg.s "--dtm", Arg.s dtm, Arg.s "--raytheon-rpc", Arg.s rpc_p]⟩, upd)) ∧
          (∀ (call : Call) (upd : String × CollectionRecord),
            orthoStep wd dsm dtm pr = some (call, upd) →
            ∃ pan_img msi_img pan_rpc msi_rpc,
              crop_call wd dsm upd = some
                ⟨"crop_and_pansharpen",
                 [Arg.s dsm, Arg.s wd, Arg.s "--pan", Arg.s pan_img, Arg.s pan_rpc,
                  Arg.s "--msi", Arg.s msi_img, Arg.s msi_rpc]⟩) := by
  intro ntf_fpaths rpc_fpaths info_fpaths hne wd dsm dtm pr hpr
  rw [buildCatalog_eq] at hpr
  obtain ⟨q, hq, rfl⟩ := List.mem_map.mp hpr
  obtain ⟨hqmem, hqc⟩ := List.mem_filter.mp hq
  obtain ⟨hpi, hpn, hpr2, hmi, hmn, hmr⟩ := (recordComplete_lookup _).mp hqc
  obtain ⟨img, himg⟩ := Option.isSome_iff_exists.mp hmi
  obtain ⟨mrpc, hmrpc⟩ := Option.isSome_iff_exists.mp hmr
  obtain ⟨pimg, hpimg⟩ := Option.isSome_iff_exists.mp hpi
  obtain ⟨prpc, hprpc⟩ := Option.isSome_iff_exists.mp hpr2
  have hmrpc_src : mrpc ∈ rpc_fpaths := by
    rcases (buildRecord_lookup q ntf_fpaths rpc_fpaths info_fpaths .msi "rpc" mrpc
        hmrpc).2.2 with ⟨_, hk⟩ | ⟨hmem, _⟩ | ⟨_, hk⟩
    · exact absurd hk (by decide)
    · exact hmem
    · exact absurd hk (by decide)
  have hprpc_src : prpc ∈ rpc_fpaths := by
    rcases (buildRecord_lookup q ntf_fpaths rpc_fpaths info_fpaths .pan "rpc" prpc
        hprpc).2.2 with ⟨_, hk⟩ | ⟨hmem, _⟩ | ⟨_, hk⟩
    · exact absurd hk (by decide)
    · exact hmem
    · exact absurd hk (by decide)
  have hmt : truthyStr (List.lookup "rpc"
      (buildRecord q ntf_fpaths rpc_fpaths info_fpaths).msi) = some mrpc := by
    rw [hmrpc]
    simp [truthyStr, hne mrpc hmrpc_src]
  have hpt : truthyStr (List.lookup "rpc"
      (buildRecord q ntf_fpaths rpc_fpaths info_fpaths).pan) = some prpc := by
    rw [hprpc]
    simp [truthyStr, hne prpc hprpc_src]
  have hstep : orthoStep wd dsm dtm (q, buildRecord q ntf_fpaths rpc_fpaths info_fpaths) =
      some (⟨"orthorectify",
        [Arg.s img, Arg.s dsm,
         Arg.s (pathJoin wd (splitextStem (pathSplitBase img) ++ "_ortho.tif")),
         Arg.s "--dtm", Arg.s dtm, Arg.s "--raytheon-rpc", Arg.s mrpc]⟩,
        (q, { buildRecord q ntf_fpaths rpc_fpaths info_fpaths with
              msi := dictInsert (buildRecord q ntf_fpaths rpc_fpaths info_fpaths).msi
                "ortho_img_fpath"
                (pathJoin wd (splitextStem (pathSplitBase img) ++ "_ortho.tif")) })) := by
    unfold orthoStep
    rw [show List.lookup "image"
        ((q, buildRecord q ntf_fpaths rpc_fpaths info_fpaths) :
          String × CollectionRecord).2.msi = some img from himg]
    simp only []
    rw [show truthyStr (List.lookup "rpc"
        ((q, buildRecord q ntf_fpaths rpc_fpaths info_fpaths) :
          String × CollectionRecord).2.msi) = some mrpc from hmt]
    rfl
  refine ⟨⟨img, mrpc, _, himg, hmrpc, hstep⟩, ?_⟩
  intro call upd hco
  rw [hstep] at hco
  simp only [Option.some.injEq, Prod.mk.injEq] at hco
  obtain ⟨-, hupd⟩ := hco
  refine ⟨pimg, img, prpc, mrpc, ?_⟩
  rw [← hupd]
  unfold crop_call
  rw [show List.lookup "image" ((q, { buildRecord q ntf_fpaths rpc_fpaths info_fpaths with
        msi := dictInsert (buildRecord q ntf_fpaths rpc_fpaths info_fpaths).msi
          "ortho_img_fpath"
          (pathJoin wd (splitextStem (pathSplitBase img) ++ "_ortho.tif")) }) :
      String × CollectionRecord).2.pan = some pimg from hpimg]
  rw [show List.lookup "image" ((q, { buildRecord q ntf_fpaths rpc_fpaths info_fpaths with
        msi := dictInsert (buildRecord q ntf_fpaths rpc_fpaths info_fpaths).msi
          "ortho_img_fpath"
          (pathJoin wd (splitextStem (pathSplitBase img) ++ "_ortho.tif")) }) :
      String × CollectionRecord).2.msi = some img from by
    show List.lookup "image" (dictInsert (buildRecord q ntf_fpaths rpc_fpaths info_fpaths).msi
        "ortho_img_fpath"
        (pathJoin wd (splitextStem (pathSplitBase img) ++ "_ortho.tif"))) = some img
    rw [lookup_dictInsert, if_neg (by decide)]
    exact himg]
  simp only []
  rw [show truthyStr (List.lookup "rpc"
      ({ buildRecord q ntf_fpaths rpc_fpaths info_fpaths with
         msi := dictInsert (buildRecord q ntf_fpaths rpc_fpaths info_fpaths).msi
           "ortho_img_fpath"
           (pathJoin wd (splitextStem (pathSplitBase img) ++ "_ortho.tif")) } :
        CollectionRecord).pan) = some prpc from hpt]
  rw [show truthyStr (List.lookup "rpc"
      ({ buildRecord q ntf_fpaths rpc_fpaths info_fpaths with
         msi := dictInsert (buildRecord q ntf_fpaths rpc_fpaths info_fpaths).msi
           "ortho_img_fpath"
           (pathJoin wd (splitextStem (pathSplitBase img) ++ "_ortho.tif")) } :
        CollectionRecord).msi) = some mrpc from by
    show truthyStr (List.lookup "rpc"
        (dictInsert (buildRecord q ntf_fpaths rpc_fpaths info_fpaths).msi "ortho_img_fpath"
          (pathJoin wd (splitextStem (pathSplitBase img) ++ "_ortho.tif")))) = some mrpc
    rw [lookup_dictInsert, if_neg (by decide)]
    exact hmt]
  rfl

/-- Concrete configuration without a `gsd` key, for the concrete trace. -/
def cfg0 : Config :=
  ⟨"im", some "wd", "rpcdir", "p.las", "D4", none, none, "mm", none, false,
   "rmd", "rmp", "refd", "refp"⟩

/-- Concrete complete collection record. -/
def rec0 : CollectionRecord :=
  ⟨[("image", "P.ntf"), ("info", "P.tar"), ("rpc", "P.rpc")],
   [("image", "M.ntf"), ("info", "M.tar"), ("rpc", "M.rpc")], [], -1⟩

/-- Concrete validated catalogue. -/
def catalog0 : List (String × CollectionRecord) :=
  [("12ABC12345678", rec0)]

/-- Concrete `*.obj` glob result containing the occlusion mesh and one
generated building mesh. -/
def objB0 : List String :=
  ["wd/m.obj", "wd/building_3.obj", "wd/xxxx.obj"]

/-- The concrete stage trace. -/
def calls0 : List Call :=
  (pipelineTrace cfg0 "wd" catalog0 [] [] objB0).getD []

/-- Witness for the double buildings-to-raster invocation on the concrete
trace. -/
theorem buildings_to_dsm_twice_witness :
    pipelineTrace cfg0 "wd" catalog0 [] [] objB0 = some calls0 ∧
    calls0.filter (fun cl => cl.stage == "buildings_to_dsm") =
      [⟨"buildings_to_dsm",
        [Arg.s (pathJoin "wd" (cfg0.aoi_name ++ "_DTM.tif")),
         Arg.s (pathJoin "wd" "buildings_to_dsm_DSM.tif"), Arg.s "--input_obj_paths"] ++
        (meshFilter objB0).map Arg.s⟩,
       ⟨"buildings_to_dsm",
        [Arg.s (pathJoin "wd" (cfg0.aoi_name ++ "_DTM.tif")),
         Arg.s (pathJoin "wd" "buildings_to_dsm_CLS.tif"), Arg.s "--render_cls",
         Arg.s "--input_obj_paths"] ++ (meshFilter objB0).map Arg.s⟩] :=
  ⟨by rfl, buildings_to_dsm_runs_twice cfg0 "wd" catalog0 [] [] objB0 calls0 (by rfl)⟩

/-- Witness for the fixed artifact names and the default ground sample
distance on the concrete trace. -/
theorem fixed_names_witness :
    cfg0.gsd = none ∧
    pipelineTrace cfg0 "wd" catalog0 [] [] objB0 = some calls0 ∧
    ((∃ tail, Call.mk "generate_dsm"
        ([Arg.s ("wd" ++ "/" ++ (cfg0.aoi_name ++ "_P3D_DSM.tif")), Arg.s "-s",
          Arg.s cfg0.p3d_fpath, Arg.s "--gsd", Arg.gsdVal (1 / 4)] ++ tail) ∈ calls0) ∧
     Call.mk "fit_dtm" [Arg.s ("wd" ++ "/" ++ (cfg0.aoi_name ++ "_P3D_DSM.tif")),
        Arg.s ("wd" ++ "/" ++ (cfg0.aoi_name ++ "_DTM.tif"))] ∈ calls0 ∧
     (∃ srcs, Call.mk "compute_ndvi" (srcs ++ [Arg.s ("wd" ++ "/" ++ "ndvi.tif")]) ∈ calls0) ∧
     (∃ tail, Call.mk "segment_by_height"
        (Arg.s ("wd" ++ "/" ++ (cfg0.aoi_name ++ "_P3D_DSM.tif")) ::
         Arg.s ("wd" ++ "/" ++ (cfg0.aoi_name ++ "_DTM.tif")) ::
         Arg.s ("wd" ++ "/" ++ "threshold_CLS.tif") :: tail) ∈ calls0) ∧
     (∃ objs, Call.mk "buildings_to_dsm"
        ([Arg.s ("wd" ++ "/" ++ (cfg0.aoi_name ++ "_DTM.tif")),
          Arg.s ("wd" ++ "/" ++ "buildings_to_dsm_DSM.tif"),
          Arg.s "--input_obj_paths"] ++ objs) ∈ calls0) ∧
     (∃ objs, Call.mk "buildings_to_dsm"
        ([Arg.s ("wd" ++ "/" ++ (cfg0.aoi_name ++ "_DTM.tif")),
          Arg.s ("wd" ++ "/" ++ "buildings_to_dsm_CLS.tif"), Arg.s "--render_cls",
          Arg.s "--input_obj_paths"] ++ objs) ∈ calls0) ∧
     Call.mk "run_metrics"
        [Arg.s "--output-dir", Arg.s ("wd" ++ "/" ++ "metrics"),
         Arg.s "--ref-dir", Arg.s cfg0.metrics_ref_data_dir,
         Arg.s "--ref-prefix", Arg.s cfg0.metrics_ref_data_prefix,
         Arg.s "--dsm", Arg.s ("wd" ++ "/" ++ "buildings_to_dsm_DSM.tif"),
         Arg.s "--cls", Arg.s ("wd" ++ "/" ++ "buildings_to_dsm_CLS.tif"),
         Arg.s "--mtl", Arg.s ("wd" ++ "/" ++ (cfg0.aoi_name ++ "_MTL.tif")),
         Arg.s "--dtm", Arg.s ("wd" ++ "/" ++ (cfg0.aoi_name ++ "_DTM.tif"))] ∈ calls0) :=
  ⟨rfl, by rfl,
   fixed_output_names_and_gsd_default cfg0 "wd" catalog0 [] [] objB0 calls0 rfl (by rfl)⟩

/-- Witness for the always-taken rpc branches on the concrete catalogue. -/
theorem rpc_branches_witness :
    (∀ p ∈ rpcW, p.isEmpty = false) ∧
    (("12ABC12345678", buildRecord "12ABC12345678" ntfW rpcW infoW) ∈
      (buildCatalog ntfW rpcW infoW).1) ∧
    ((∃ img rpc_p upd,
        List.lookup "image" (buildRecord "12ABC12345678" ntfW rpcW infoW).msi = some img ∧
        List.lookup "rpc" (buildRecord "12ABC12345678" ntfW rpcW infoW).msi = some rpc_p ∧
        orthoStep "wd" "dsm.tif" "dtm.tif"
            ("12ABC12345678", buildRecord "12ABC12345678" ntfW rpcW infoW) = some
          (⟨"orthorectify",
            [Arg.s img, Arg.s "dsm.tif",
             Arg.s (pathJoin "wd" (splitextStem (pathSplitBase img) ++ "_ortho.tif")),
             Arg.s "--dtm", Arg.s "dtm.tif", Arg.s "--raytheon-rpc", Arg.s rpc_p]⟩, upd)) ∧
     (∀ (call : Call) (upd : String × CollectionRecord),
        orthoStep "wd" "dsm.tif" "dtm.tif"
            ("12ABC12345678", buildRecord "12ABC12345678" ntfW rpcW infoW) =
          some (call, upd) →
        ∃ pan_img msi_img pan_rpc msi_rpc,
          crop_call "wd" "dsm.tif" upd = some
            ⟨"crop_and_pansharpen",
             [Arg.s "dsm.tif", Arg.s "wd", Arg.s "--pan", Arg.s pan_img, Arg.s pan_rpc,
              Arg.s "--msi", Arg.s msi_img, Arg.s msi_rpc]⟩)) :=
  ⟨by decide, by decide,
   rpc_branches_always_taken ntfW rpcW infoW (by decide) "wd" "dsm.tif" "dtm.tif"
     ("12ABC12345678", buildRecord "12ABC12345678" ntfW rpcW infoW) (by decide)⟩

end Danesfield
